import Mathlib

/-!
Verification development for the token-scanner bot in `src/main.py`.

The embedding is shallow: the Python values flowing through the resolver are
modelled by `PyVal`, dictionaries by association lists (`PyDict`) with the
replace-or-append semantics of `dict.update`, exceptions by `Except Unit`
(every `try/except` of the source catches and discards, which the model
mirrors by mapping a raised step to "no update"), and `aiohttp` responses by
`Upstream` (network error, or a status code with an optionally parseable JSON
body).  Python floats are modelled as exact rationals; the source only
coerces, compares and passes them through, and formats them with fixed
decimal counts, all of which are exact on the inputs the claims concern.

The regular-expression layer embeds exactly the three patterns of
`ADDRESS_PATTERNS` with `re.findall` semantics (leftmost, non-overlapping,
greedy) and `re.fullmatch` semantics; the scanners are written with an
explicit fuel argument (`gas`), always called with fuel equal to the input
length, so that they are structurally recursive and evaluate inside `decide`.
-/

/-- ASCII whitespace as recognised by Python's `\s` and `str.strip`
(the claims only involve ASCII text, so the Unicode cases are not needed). -/
def isPySpace (c : Char) : Bool :=
  c = ' ' || c = '\t' || c = '\n' || c = '\r' || c = '\x0b' || c = '\x0c'

/-- The base58 character class `[1-9A-HJ-NP-Za-km-z]` of the Solana pattern. -/
def isBase58 (c : Char) : Bool :=
  (decide ('1' ≤ c) && decide (c ≤ '9')) ||
  (decide ('A' ≤ c) && decide (c ≤ 'H')) ||
  (decide ('J' ≤ c) && decide (c ≤ 'N')) ||
  (decide ('P' ≤ c) && decide (c ≤ 'Z')) ||
  (decide ('a' ≤ c) && decide (c ≤ 'k')) ||
  (decide ('m' ≤ c) && decide (c ≤ 'z'))

/-- The hex character class `[a-fA-F0-9]` of the EVM pattern. -/
def isHexChar (c : Char) : Bool :=
  (decide ('0' ≤ c) && decide (c ≤ '9')) ||
  (decide ('a' ≤ c) && decide (c ≤ 'f')) ||
  (decide ('A' ≤ c) && decide (c ≤ 'F'))

/-- `str.strip()`: drop ASCII whitespace from both ends. -/
def pyStrip (l : List Char) : List Char :=
  ((l.dropWhile isPySpace).reverse.dropWhile isPySpace).reverse

/-!  `re.findall` for the three patterns.  Each scanner walks the text one
position at a time; at a position where the pattern matches it emits the
(greedy, leftmost) match and resumes immediately after it, exactly as
`re.findall` produces non-overlapping matches. -/

/-- Greedy match of `[1-9A-HJ-NP-Za-km-z]{32,44}` anchored at the head:
the run of base58 characters starting here, truncated at 44, provided it has
at least 32 characters. -/
def solMatchAt (l : List Char) : Option (List Char) :=
  let run := l.takeWhile isBase58
  if 32 ≤ run.length then some (run.take 44) else Option.none

/-- Greedy match of `0x[a-fA-F0-9]{40}` anchored at the head.
A successful match always has exactly 42 characters. -/
def evmMatchAt (l : List Char) : Option (List Char) :=
  match l with
  | c1 :: c2 :: rest =>
      if c1 = '0' && c2 = 'x' && decide (40 ≤ rest.length) && (rest.take 40).all isHexChar
      then some (c1 :: c2 :: rest.take 40) else Option.none
  | _ => Option.none

/-- Greedy match of `http[s]?//[^ ]+`-style pattern `http[s]?://[^\s]+`
anchored at the head: the scheme (with `s` preferred, as the greedy `[s]?`
does) followed by a nonempty maximal run of non-whitespace characters. -/
def urlMatchAt (l : List Char) : Option (List Char) :=
  if l.take 8 = ['h', 't', 't', 'p', 's', ':', '/', '/'] then
    let body := (l.drop 8).takeWhile (fun c => !(isPySpace c))
    if body.isEmpty then Option.none else some (l.take 8 ++ body)
  else if l.take 7 = ['h', 't', 't', 'p', ':', '/', '/'] then
    let body := (l.drop 7).takeWhile (fun c => !(isPySpace c))
    if body.isEmpty then Option.none else some (l.take 7 ++ body)
  else Option.none

/-- One generic `findall` pass: `scanGas matchAt gas i l` scans `l`, whose
first character sits at text position `i`, emitting `(position, match)`
pairs.  `gas` is fuel for structural recursion; a successful match is always
nonempty, so fuel `l.length` (as used by the wrappers below) never runs out. -/
def scanGas (matchAt : List Char → Option (List Char)) :
    Nat → Nat → List Char → List (Nat × List Char)
  | 0, _, _ => []
  | _ + 1, _, [] => []
  | gas + 1, i, c :: cs =>
      match matchAt (c :: cs) with
      | some m => (i, m) :: scanGas matchAt gas (i + m.length) ((c :: cs).drop m.length)
      | Option.none => scanGas matchAt gas (i + 1) cs

/-- Positioned `re.findall(ADDRESS_PATTERNS["solana"], l)`. -/
def solScan (l : List Char) : List (Nat × List Char) := scanGas solMatchAt l.length 0 l

/-- Positioned `re.findall(ADDRESS_PATTERNS["evm"], l)`. -/
def evmScan (l : List Char) : List (Nat × List Char) := scanGas evmMatchAt l.length 0 l

/-- Positioned `re.findall(ADDRESS_PATTERNS["url"], l)`. -/
def urlScan (l : List Char) : List (Nat × List Char) := scanGas urlMatchAt l.length 0 l

/-- `re.findall(ADDRESS_PATTERNS["solana"], l)` (matches only). -/
def solanaFindAll (l : List Char) : List (List Char) := (solScan l).map Prod.snd

/-- `re.findall(ADDRESS_PATTERNS["evm"], l)` (matches only). -/
def evmFindAll (l : List Char) : List (List Char) := (evmScan l).map Prod.snd

/-- `re.findall(ADDRESS_PATTERNS["url"], l)` (matches only). -/
def urlFindAll (l : List Char) : List (List Char) := (urlScan l).map Prod.snd

/-- `re.fullmatch(ADDRESS_PATTERNS["solana"], l)`: between 32 and 44
characters, all in the base58 class. -/
def solanaFullmatch (l : List Char) : Bool :=
  decide (32 ≤ l.length) && decide (l.length ≤ 44) && l.all isBase58

/-- `re.fullmatch(ADDRESS_PATTERNS["evm"], l)`: literal `0x` then exactly 40
hex characters. -/
def evmFullmatch (l : List Char) : Bool :=
  match l with
  | c1 :: c2 :: rest => c1 = '0' && c2 = 'x' && decide (rest.length = 40) && rest.all isHexChar
  | _ => false

/-- `re.fullmatch(ADDRESS_PATTERNS["url"], l)`: an `http://` or `https://`
scheme followed by a nonempty all-non-whitespace remainder. -/
def urlFullmatch (l : List Char) : Bool :=
  if l.take 8 = ['h', 't', 't', 'p', 's', ':', '/', '/'] then
    !(l.drop 8).isEmpty && (l.drop 8).all (fun c => !(isPySpace c))
  else if l.take 7 = ['h', 't', 't', 'p', ':', '/', '/'] then
    !(l.drop 7).isEmpty && (l.drop 7).all (fun c => !(isPySpace c))
  else false

/-- `detect_address_type` (src/main.py lines 252-261): try the Solana,
EVM and URL patterns as full matches, in that order. -/
def detect_address_type (l : List Char) : String :=
  if solanaFullmatch l then "Solana"
  else if evmFullmatch l then "EVM (Ethereum/BSC)"
  else if urlFullmatch l then "URL"
  else "Unknown"

/-- The address-collection loop of `on_message` (src/main.py lines 275-282):
strip the content, then for each pattern in dictionary order (solana, evm,
url) collect every `re.findall` match tagged with `detect_address_type`. -/
def scanMessage (content : List Char) : List (List Char × String) :=
  let c := pyStrip content
  (solanaFindAll c).map (fun m => (m, detect_address_type m))
    ++ (evmFindAll c).map (fun m => (m, detect_address_type m))
    ++ (urlFindAll c).map (fun m => (m, detect_address_type m))

/-!  Python values, dictionaries and coercions used by the resolver. -/

/-- JSON-decoded Python values (plus `None` and booleans).  Numbers are
modelled as exact rationals. -/
inductive PyVal where
  | none
  | bool (b : Bool)
  | num (q : ℚ)
  | str (s : String)
  | list (xs : List PyVal)
  | dict (kvs : List (String × PyVal))

/-- A Python dictionary: an insertion-ordered association list. -/
abbrev PyDict := List (String × PyVal)

/-- First binding of a key, as `dict.__getitem__` / `dict.get` find it. -/
def dictLookup : PyDict → String → Option PyVal
  | [], _ => Option.none
  | (k', v) :: rest, k => if k' = k then some v else dictLookup rest k

/-- `d[k] = v`: replace the value at an existing key in place, otherwise
append the new binding at the end (Python dicts keep insertion order). -/
def dictSet : PyDict → String → PyVal → PyDict
  | [], k, v => [(k, v)]
  | (k', v') :: rest, k, v =>
      if k' = k then (k', v) :: rest else (k', v') :: dictSet rest k v

/-- `dict.update`: assign each binding of the update list in order. -/
def dictUpdate (d : PyDict) (upd : PyDict) : PyDict :=
  upd.foldl (fun acc kv => dictSet acc kv.1 kv.2) d

/-- `token_data.get(key, default)` on a dictionary that is known to be one. -/
def tdGet (d : PyDict) (k : String) (default : PyVal) : PyVal :=
  (dictLookup d k).getD default

/-- Python truthiness. -/
def PyVal.truthy : PyVal → Bool
  | .none => false
  | .bool b => b
  | .num q => decide (q ≠ 0)
  | .str s => decide (s ≠ "")
  | .list xs => !xs.isEmpty
  | .dict kvs => !kvs.isEmpty

/-- `x or y`. -/
def pyOr (a b : PyVal) : PyVal := if a.truthy then a else b

/-- `v.get(key, default)`: succeeds only on dictionaries, any other receiver
raises `AttributeError` (which every caller in the source catches). -/
def pyGet (v : PyVal) (k : String) (default : PyVal) : Except Unit PyVal :=
  match v with
  | .dict kvs => .ok (tdGet kvs k default)
  | _ => .error ()

/-- `v == 0` (Python compares booleans numerically; any non-number compares
unequal without raising). -/
def pyEqZero : PyVal → Bool
  | .num q => decide (q = 0)
  | .bool b => !b
  | _ => false

/-- `v == s` for a string literal `s`. -/
def pyEqStr (v : PyVal) (s : String) : Bool :=
  match v with
  | .str s' => s' = s
  | _ => false

/-- `v is None`. -/
def pyIsNone : PyVal → Bool
  | .none => true
  | _ => false

/-- `v > 0`: numeric for numbers and booleans, `TypeError` otherwise. -/
def pyPos : PyVal → Except Unit Bool
  | .num q => .ok (decide (0 < q))
  | .bool b => .ok b
  | _ => .error ()

/-- `v != 0`: `True` for every non-number (`!=` never raises). -/
def pyNeqZero : PyVal → Except Unit Bool
  | .num q => .ok (decide (q ≠ 0))
  | .bool b => .ok b
  | _ => .ok true

/-- Digits of a decimal literal read as a natural number; fails on any
non-digit.  The empty list reads as 0 (callers reject the empty-total case). -/
def decDigits? (l : List Char) : Option Nat :=
  l.foldl (fun acc c =>
    acc.bind (fun n => if c.isDigit then some (n * 10 + (c.toNat - 48)) else Option.none))
    (some 0)

/-- `float(s)` for a decimal string: optional surrounding whitespace, optional
sign, digits with at most one decimal point, at least one digit in total.
(Exponent, `inf` and `nan` forms are not modelled; no claim depends on them.) -/
def parseDecimal (s : String) : Option ℚ :=
  let core := (s.toList.dropWhile isPySpace).reverse.dropWhile isPySpace |>.reverse
  let (sign, digits) :=
    match core with
    | '-' :: rest => ((-1 : ℚ), rest)
    | '+' :: rest => ((1 : ℚ), rest)
    | rest => ((1 : ℚ), rest)
  let intPart := digits.takeWhile (fun c => !(c = '.'))
  let rest := digits.drop intPart.length
  match rest with
  | [] =>
      if intPart.isEmpty then Option.none
      else (decDigits? intPart).map (fun n => sign * (n : ℚ))
  | '.' :: fracPart =>
      if intPart.isEmpty && fracPart.isEmpty then Option.none
      else
        (decDigits? intPart).bind (fun n =>
          (decDigits? fracPart).map (fun f =>
            sign * ((n : ℚ) + (f : ℚ) / ((10 : ℚ) ^ fracPart.length))))
  | _ => Option.none

/-- `float(v)`: identity on numbers, numeric on booleans, decimal parsing on
strings, `TypeError` on `None`, lists and dictionaries. -/
def pyFloat : PyVal → Except Unit ℚ
  | .num q => .ok q
  | .bool b => .ok (if b then 1 else 0)
  | .str s => match parseDecimal s with
              | some q => .ok q
              | Option.none => .error ()
  | _ => .error ()

/-- Substring test: does `needle` occur contiguously in the second list? -/
def listHasSub (needle : List Char) : List Char → Bool
  | [] => needle.isEmpty
  | c :: cs => needle.isPrefixOf (c :: cs) || listHasSub needle cs

/-- `needle in hay` for a string needle: key membership on dictionaries,
element equality on lists, substring test on strings, `TypeError` otherwise. -/
def pyContains (hay : PyVal) (needle : String) : Except Unit Bool :=
  match hay with
  | .dict kvs => .ok (kvs.any (fun kv => kv.1 = needle))
  | .list xs => .ok (xs.any (fun x => pyEqStr x needle))
  | .str s => .ok (listHasSub needle.toList s.toList)
  | _ => .error ()

/-- Outcome of one outbound `session.get`: a network error or timeout
(`aiohttp` raises), or a status code with a body that `response.json()`
either parses to a `PyVal` or fails on. -/
inductive Upstream where
  | err
  | resp (status : Nat) (body : Option PyVal)

/-- Collapse a per-source computation into "an update to apply" or "nothing";
a raised step (`.error`) is caught by the per-source `except` and yields
nothing. -/
def runSource {α : Type} : Except Unit α → Option α
  | .ok a => some a
  | .error _ => Option.none

/-!  Number formatting (src/main.py lines 36-66). -/

/-- Round half to even, as Python's fixed-point float formatting does. -/
def roundHalfEven (x : ℚ) : ℤ :=
  let f := Rat.floor x
  let frac := x - (f : ℚ)
  if frac < 1 / 2 then f
  else if 1 / 2 < frac then f + 1
  else if f % 2 = 0 then f else f + 1

/-- A natural number rendered in decimal, left-padded with zeros to `dec`
digits. -/
def natToPaddedDigits (n dec : Nat) : String :=
  let s := toString n
  String.mk (List.replicate (dec - s.length) '0') ++ s

/-- Fixed-point rendering `f"{q:.{dec}f}"` of an exact rational. -/
def formatFixed (q : ℚ) (dec : Nat) : String :=
  let scaled := roundHalfEven (q * (10 : ℚ) ^ dec)
  let sign := if scaled < 0 then "-" else ""
  let a := scaled.natAbs
  sign ++ toString (a / 10 ^ dec) ++
    (if dec = 0 then "" else "." ++ natToPaddedDigits (a % 10 ^ dec) dec)

/-- Signed fixed-point rendering `f"{q:+.{dec}f}"`. -/
def formatSignedFixed (q : ℚ) (dec : Nat) : String :=
  let scaled := roundHalfEven (q * (10 : ℚ) ^ dec)
  let sign := if scaled < 0 then "-" else "+"
  let a := scaled.natAbs
  sign ++ toString (a / 10 ^ dec) ++
    (if dec = 0 then "" else "." ++ natToPaddedDigits (a % 10 ^ dec) dec)

/-- `format_number` (src/main.py lines 48-66): `"N/A"` for `None`, zero and
unconvertible inputs; otherwise a dollar figure with a B/M/K magnitude suffix
at the 1e9/1e6/1e3 thresholds (2 decimals), 4 decimals for values at least 1
and 8 decimals below 1. -/
def format_number (v : PyVal) : String :=
  if pyIsNone v || pyEqZero v then "N/A"
  else
    match pyFloat v with
    | .error _ => "N/A"
    | .ok q =>
        if 1000000000 ≤ q then "$" ++ formatFixed (q / 1000000000) 2 ++ "B"
        else if 1000000 ≤ q then "$" ++ formatFixed (q / 1000000) 2 ++ "M"
        else if 1000 ≤ q then "$" ++ formatFixed (q / 1000) 2 ++ "K"
        else if 1 ≤ q then "$" ++ formatFixed q 4
        else "$" ++ formatFixed q 8

/-- `format_percentage` (src/main.py lines 36-45): `"0.00%"` for `None` and
zero, otherwise a signed two-decimal percentage coloured by sign (the
`f"{value:+.2f}"` interpolation raises `TypeError` on non-numeric input). -/
def format_percentage (v : PyVal) : Except Unit String :=
  if pyIsNone v || pyEqZero v then .ok "0.00%"
  else do
    let q ← match v with
            | .num q => Except.ok q
            | .bool b => Except.ok (if b then (1 : ℚ) else 0)
            | _ => Except.error ()
    let formatted := formatSignedFixed q 2 ++ "%"
    if 0 < q then .ok ("🟢 " ++ formatted) else .ok ("🔴 " ++ formatted)

/-!  The market-data resolver (src/main.py lines 69-249).

Each upstream source is modelled as an "attempt" that inspects its
`Upstream` response and either produces the update the source's inner `try`
block would apply to `token_data`, or produces nothing — covering the
network-error, non-200, unparseable-body, condition-false and
raised-while-extracting cases alike, none of which touch `token_data`. -/

/-- The initial `token_data` of `get_solana_token_data`
(src/main.py lines 76-87). -/
def solInit : PyDict :=
  [("name", .str "Unknown Token"), ("symbol", .str "UNKNOWN"), ("price", .num 0),
   ("volume24h", .num 0), ("priceChange24h", .num 0), ("priceChange1h", .num 0),
   ("liquidity", .num 0), ("fdv", .num 0), ("marketCap", .num 0), ("success", .bool false)]

/-- The initial `token_data` of `get_evm_token_data`
(src/main.py lines 177-187).  Note: it has no `fdv` entry. -/
def evmInit : PyDict :=
  [("name", .str "Unknown Token"), ("symbol", .str "UNKNOWN"), ("price", .num 0),
   ("volume24h", .num 0), ("priceChange24h", .num 0), ("priceChange1h", .num 0),
   ("liquidity", .num 0), ("marketCap", .num 0), ("success", .bool false)]

/-- `float(p.get('liquidity', {}).get('usd', 0) or 0)` — the key function of
the `max(pairs, ...)` call. -/
def pairLiquidity (p : PyVal) : Except Unit ℚ := do
  let liq ← pyGet p "liquidity" (.dict [])
  let usd ← pyGet liq "usd" (.num 0)
  pyFloat (pyOr usd (.num 0))

/-- Fold of `max(pairs, key=...)`: keep the current best unless a later
element's key is strictly greater (so ties keep the first-seen element);
a raised key computation propagates. -/
def maxByLiquidityGo (best : PyVal) (bestKey : ℚ) : List PyVal → Except Unit PyVal
  | [] => .ok best
  | p :: rest => do
      let k ← pairLiquidity p
      if bestKey < k then maxByLiquidityGo p k rest else maxByLiquidityGo best bestKey rest

/-- `max(pairs, key=lambda p: float(p.get('liquidity', {}).get('usd', 0) or 0))`. -/
def maxByLiquidity : List PyVal → Except Unit PyVal
  | [] => .error ()
  | p :: rest => do
      let k ← pairLiquidity p
      maxByLiquidityGo p k rest

/-- The fields the Solana DexScreener branch extracts from the selected pair
(src/main.py lines 103-113), before they are written into `token_data`. -/
structure DexFields where
  name : PyVal
  symbol : PyVal
  price : ℚ
  volume24h : ℚ
  liquidity : ℚ
  fdv : ℚ
  marketCap : ℚ
  priceChange24h : ℚ
  priceChange1h : ℚ

/-- Field extraction of the Solana DexScreener branch; any raising step
(non-dict receiver of `.get`, unconvertible `float` argument) aborts the
whole update, since the source evaluates the full `dict` literal before
calling `token_data.update`. -/
def extractDexFields (pair : PyVal) : Except Unit DexFields := do
  let baseToken ← pyGet pair "baseToken" (.dict [])
  let name ← pyGet baseToken "name" (.str "Unknown Token")
  let symbol ← pyGet baseToken "symbol" (.str "UNKNOWN")
  let priceV ← pyGet pair "priceUsd" (.num 0)
  let price ← pyFloat (pyOr priceV (.num 0))
  let volD ← pyGet pair "volume" (.dict [])
  let volV ← pyGet volD "h24" (.num 0)
  let volume24h ← pyFloat (pyOr volV (.num 0))
  let liqD ← pyGet pair "liquidity" (.dict [])
  let liqV ← pyGet liqD "usd" (.num 0)
  let liquidity ← pyFloat (pyOr liqV (.num 0))
  let fdvV ← pyGet pair "fdv" (.num 0)
  let fdv ← pyFloat (pyOr fdvV (.num 0))
  let mcV ← pyGet pair "marketCap" (.num 0)
  let marketCap ← pyFloat (pyOr mcV (.num 0))
  let pcD ← pyGet pair "priceChange" (.dict [])
  let p24 ← pyGet pcD "h24" (.num 0)
  let priceChange24h ← pyFloat (pyOr p24 (.num 0))
  let p1 ← pyGet pcD "h1" (.num 0)
  let priceChange1h ← pyFloat (pyOr p1 (.num 0))
  .ok ⟨name, symbol, price, volume24h, liquidity, fdv, marketCap, priceChange24h, priceChange1h⟩

/-- The `token_data.update({...})` argument of the Solana DexScreener branch
(src/main.py lines 104-115), in source order. -/
def solDexUpdates (f : DexFields) : PyDict :=
  [("name", f.name), ("symbol", f.symbol), ("price", .num f.price),
   ("volume24h", .num f.volume24h), ("liquidity", .num f.liquidity),
   ("fdv", .num f.fdv), ("marketCap", .num f.marketCap),
   ("priceChange24h", .num f.priceChange24h), ("priceChange1h", .num f.priceChange1h),
   ("success", .bool true)]

/-- The fields the EVM DexScreener branch extracts (src/main.py lines
203-212); unlike the Solana branch it never reads `fdv`. -/
structure EvmDexFields where
  name : PyVal
  symbol : PyVal
  price : ℚ
  volume24h : ℚ
  liquidity : ℚ
  marketCap : ℚ
  priceChange24h : ℚ
  priceChange1h : ℚ

/-- Field extraction of the EVM DexScreener branch. -/
def extractEvmDexFields (pair : PyVal) : Except Unit EvmDexFields := do
  let baseToken ← pyGet pair "baseToken" (.dict [])
  let name ← pyGet baseToken "name" (.str "Unknown Token")
  let symbol ← pyGet baseToken "symbol" (.str "UNKNOWN")
  let priceV ← pyGet pair "priceUsd" (.num 0)
  let price ← pyFloat (pyOr priceV (.num 0))
  let volD ← pyGet pair "volume" (.dict [])
  let volV ← pyGet volD "h24" (.num 0)
  let volume24h ← pyFloat (pyOr volV (.num 0))
  let liqD ← pyGet pair "liquidity" (.dict [])
  let liqV ← pyGet liqD "usd" (.num 0)
  let liquidity ← pyFloat (pyOr liqV (.num 0))
  let mcV ← pyGet pair "marketCap" (.num 0)
  let marketCap ← pyFloat (pyOr mcV (.num 0))
  let pcD ← pyGet pair "priceChange" (.dict [])
  let p24 ← pyGet pcD "h24" (.num 0)
  let priceChange24h ← pyFloat (pyOr p24 (.num 0))
  let p1 ← pyGet pcD "h1" (.num 0)
  let priceChange1h ← pyFloat (pyOr p1 (.num 0))
  .ok ⟨name, symbol, price, volume24h, liquidity, marketCap, priceChange24h, priceChange1h⟩

/-- The `token_data.update({...})` argument of the EVM DexScreener branch
(src/main.py lines 204-214): no `fdv` entry. -/
def evmDexUpdates (f : EvmDexFields) : PyDict :=
  [("name", f.name), ("symbol", f.symbol), ("price", .num f.price),
   ("volume24h", .num f.volume24h), ("liquidity", .num f.liquidity),
   ("marketCap", .num f.marketCap),
   ("priceChange24h", .num f.priceChange24h), ("priceChange1h", .num f.priceChange1h),
   ("success", .bool true)]

/-- The DexScreener branch shared by both chains (src/main.py lines 90-119
and 190-218): on a 200 response whose body parses, read `pairs` with default
`[]`; only a truthy list passes `if pairs and len(pairs) > 0` without raising
(a truthy non-list raises in `len` or in `max` over its elements, and the
per-source `except` absorbs it), then select the most liquid pair and extract
its fields. -/
def dexAttempt {α : Type} (extract : PyVal → Except Unit α) (u : Upstream) : Option α :=
  match u with
  | .resp 200 (some data) =>
      match pyGet data "pairs" (.list []) with
      | .ok (.list (p :: ps)) => runSource ((maxByLiquidity (p :: ps)).bind extract)
      | _ => Option.none
  | _ => Option.none

/-- The Jupiter price fallback (src/main.py lines 122-140): on a 200
response, `price_data = data.get('data', {}).get(address)`; if that is
truthy, the update is `float(price_data.get('price', 0))` — with no `or 0`
guard, so a `None` price raises and yields nothing. -/
def jupAttempt (address : String) (u : Upstream) : Option ℚ :=
  match u with
  | .resp 200 (some data) =>
      match (pyGet data "data" (.dict [])).bind (fun d => pyGet d address .none) with
      | .ok priceData =>
          if priceData.truthy then
            runSource ((pyGet priceData "price" (.num 0)).bind pyFloat)
          else Option.none
      | .error _ => Option.none
  | _ => Option.none

/-- The Solscan metadata fallback (src/main.py lines 142-160): on a 200
response, `if data and 'name' in data` then take `name` and `symbol` with
their defaults.  It never touches `success`. -/
def solscanAttempt (u : Upstream) : Option (PyVal × PyVal) :=
  match u with
  | .resp 200 (some data) =>
      if data.truthy then
        match pyContains data "name" with
        | .ok true =>
            runSource ((pyGet data "name" (.str "Unknown Token")).bind (fun n =>
              (pyGet data "symbol" (.str "UNKNOWN")).map (fun s => (n, s))))
        | _ => Option.none
      else Option.none
  | _ => Option.none

/-- The fields of the CoinGecko fallback (src/main.py lines 232-237). -/
structure GeckoFields where
  price : ℚ
  priceChange24h : ℚ
  volume24h : ℚ
  marketCap : ℚ

/-- `address.lower()` for ASCII addresses (the only kind the classifier
produces). -/
def strLower (s : String) : String := String.mk (s.toList.map Char.toLower)

/-- The CoinGecko fallback (src/main.py lines 220-242): look the record up
under the lower-cased contract address; if it is truthy, extract spot price
(no `or 0` guard), 24h change, 24h volume and market cap. -/
def geckoAttempt (address : String) (u : Upstream) : Option GeckoFields :=
  match u with
  | .resp 200 (some data) =>
      match pyGet data (strLower address) .none with
      | .ok tokenInfo =>
          if tokenInfo.truthy then
            runSource (do
              let p ← (pyGet tokenInfo "usd" (.num 0)).bind pyFloat
              let cV ← pyGet tokenInfo "usd_24h_change" (.num 0)
              let c ← pyFloat (pyOr cV (.num 0))
              let vV ← pyGet tokenInfo "usd_24h_vol" (.num 0)
              let v ← pyFloat (pyOr vV (.num 0))
              let mV ← pyGet tokenInfo "usd_market_cap" (.num 0)
              let m ← pyFloat (pyOr mV (.num 0))
              Except.ok (⟨p, c, v, m⟩ : GeckoFields))
          else Option.none
      | .error _ => Option.none
  | _ => Option.none

/-- The CoinGecko `token_data.update({...})` argument
(src/main.py lines 232-237), in source order. -/
def geckoUpdates (f : GeckoFields) : PyDict :=
  [("price", .num f.price), ("priceChange24h", .num f.priceChange24h),
   ("volume24h", .num f.volume24h), ("marketCap", .num f.marketCap),
   ("success", .bool true)]

/-- The three upstream responses `get_solana_token_data` consumes, in call
order: DexScreener, Jupiter, Solscan. -/
structure SolEnv where
  dex : Upstream
  jup : Upstream
  solscan : Upstream

/-- The two upstream responses `get_evm_token_data` consumes, in call order:
DexScreener, CoinGecko. -/
structure EvmEnv where
  dex : Upstream
  gecko : Upstream

/-- `get_solana_token_data` (src/main.py lines 69-167): DexScreener first;
Jupiter only if `success` is still falsy; Solscan metadata only if `name` is
still the literal `'Unknown Token'`.  (The outer `try` of the source can only
fire on client-session construction, which has no counterpart in the model.) -/
def get_solana_token_data (address : String) (env : SolEnv) : PyDict :=
  let td := solInit
  let td := match dexAttempt extractDexFields env.dex with
            | some f => dictUpdate td (solDexUpdates f)
            | Option.none => td
  let td := if (tdGet td "success" .none).truthy then td
            else match jupAttempt address env.jup with
                 | some q => dictUpdate td [("price", .num q), ("success", .bool true)]
                 | Option.none => td
  let td := if pyEqStr (tdGet td "name" .none) "Unknown Token" then
              match solscanAttempt env.solscan with
              | some ns => dictUpdate td [("name", ns.1), ("symbol", ns.2)]
              | Option.none => td
            else td
  td

/-- `get_evm_token_data` (src/main.py lines 170-249): DexScreener first;
CoinGecko only if `success` is still falsy. -/
def get_evm_token_data (address : String) (env : EvmEnv) : PyDict :=
  let td := evmInit
  let td := match dexAttempt extractEvmDexFields env.dex with
            | some f => dictUpdate td (evmDexUpdates f)
            | Option.none => td
  let td := if (tdGet td "success" .none).truthy then td
            else match geckoAttempt address env.gecko with
                 | some f => dictUpdate td (geckoUpdates f)
                 | Option.none => td
  td

/-!  The per-message handler `on_message` (src/main.py lines 270-519).

The model captures the observable behaviour the claims are about: whether
the author guard returns early, which chain resolver is invoked per match,
the final `token_data`, and the embed fields added to the reply.  The purely
presentational parts — embed title, description, colour, footer, timestamp
and the loading embed's field — are literals or string slices of the address
and are elided. -/

/-- One `embed.add_field` call: its `name` and `value`. -/
structure EmbedFieldV where
  name : String
  value : String
deriving DecidableEq

/-- Static value of the URL warning field (src/main.py lines 486-490). -/
def urlWarningValue : String :=
  "⚠️ **Warning:** Web URL detected\n🔒 **Safety:** Always verify domains\n🛡️ **Tip:** Only click official links\n🚨 **Never connect wallet to suspicious sites**"

/-- Static value of the live-data status field (src/main.py lines 372-376
and 451-455). -/
def liveStatusValue : String :=
  "🟢 **Live Data Found**\n📊 Multiple APIs verified\n⚡ Real-time pricing"

/-- Static value of the no-data status field (src/main.py lines 388-392 and
467-471). -/
def noDataStatusValue : String :=
  "🔴 **No Live Data**\n📊 Token not found in APIs\n⚠️ Verify contract address"

/-- Static value of the possible-reasons field (src/main.py lines 383-387
and 462-466). -/
def possibleReasonsValue : String :=
  "🔸 Very new token\n🔸 Low trading volume\n🔸 Not listed on DEXs\n🔸 Invalid contract address"

/-- Static not-available market block of the Solana branch
(src/main.py lines 378-382). -/
def solNoDataValue : String :=
  "💵 **Price:** Not Available\n🔥 **FDV:** Not Available\n🏊 **Liquidity:** Not Available\n📈 **Volume:** Not Available"

/-- Static not-available market block of the EVM branch
(src/main.py lines 457-461). -/
def evmNoDataValue : String :=
  "💵 **Price:** Not Available\n🏆 **MCap:** Not Available\n🏊 **Liquidity:** Not Available\n📈 **Volume:** Not Available"

/-- Static value of the Solana safety-reminder field
(src/main.py lines 395-399). -/
def safetyRemindersValue : String :=
  "⚠️ **Always verify contracts**\n🔒 **Check for mint/freeze authority**\n💧 **Verify liquidity is locked**\n🚨 **DYOR before investing**"

/-- The Solana quick-access links (src/main.py lines 402-405). -/
def solLinksValue (address : List Char) : String :=
  let a := String.mk address
  "[📊 Solscan](https://solscan.io/token/" ++ a ++ ") • " ++
  "[🐦 Birdeye](https://birdeye.so/token/" ++ a ++ ") • " ++
  "[📈 DexScreener](https://dexscreener.com/solana/" ++ a ++ ") • " ++
  "[💹 Jupiter](https://jup.ag/swap/SOL-" ++ a ++ ")"

/-- The EVM quick-access links (src/main.py lines 474-477). -/
def evmLinksValue (address : List Char) : String :=
  let a := String.mk address
  "[📊 Etherscan](https://etherscan.io/address/" ++ a ++ ") • " ++
  "[🛠️ DexTools](https://www.dextools.io/app/en/ether/pair-explorer/" ++ a ++ ") • " ++
  "[📈 DexScreener](https://dexscreener.com/ethereum/" ++ a ++ ") • " ++
  "[🦄 Uniswap](https://app.uniswap.org/#/tokens/ethereum/" ++ a ++ ")"

/-- The `price_info` string of the Solana success branch (src/main.py lines
341-349): price always, then MCap/FDV/Liquidity/Volume lines only when the
corresponding figure is strictly positive.  The `> 0` comparisons raise on
non-numeric values (absorbed by the per-address `except`). -/
def solPriceInfo (td : PyDict) : Except Unit String := do
  let price := tdGet td "price" (.num 0)
  let volume := tdGet td "volume24h" (.num 0)
  let liquidity := tdGet td "liquidity" (.num 0)
  let fdv := tdGet td "fdv" (.num 0)
  let mcap := tdGet td "marketCap" (.num 0)
  let s := "💵 **Price:** " ++ format_number price
  let bm ← pyPos mcap
  let s := if bm then s ++ "\n🏆 **MCap:** " ++ format_number mcap else s
  let bf ← pyPos fdv
  let s := if bf then s ++ "\n🔥 **FDV:** " ++ format_number fdv else s
  let bl ← pyPos liquidity
  let s := if bl then s ++ "\n🏊 **Liquidity:** " ++ format_number liquidity else s
  let bv ← pyPos volume
  let s := if bv then s ++ "\n📈 **Volume 24h:** " ++ format_number volume else s
  .ok s

/-- The `price_info` string of the EVM success branch (src/main.py lines
423-429): like the Solana one but with no FDV line. -/
def evmPriceInfo (td : PyDict) : Except Unit String := do
  let price := tdGet td "price" (.num 0)
  let volume := tdGet td "volume24h" (.num 0)
  let liquidity := tdGet td "liquidity" (.num 0)
  let mcap := tdGet td "marketCap" (.num 0)
  let s := "💵 **Price:** " ++ format_number price
  let bm ← pyPos mcap
  let s := if bm then s ++ "\n🏆 **MCap:** " ++ format_number mcap else s
  let bl ← pyPos liquidity
  let s := if bl then s ++ "\n🏊 **Liquidity:** " ++ format_number liquidity else s
  let bv ← pyPos volume
  let s := if bv then s ++ "\n📈 **Volume 24h:** " ++ format_number volume else s
  .ok s

/-- The `perf_info` string (src/main.py lines 358-363 and 438-443): the 1h
and 24h lines only when the change is `!= 0`, then the static 7-day line. -/
def perfInfo (td : PyDict) : Except Unit String := do
  let change1h := tdGet td "priceChange1h" (.num 0)
  let change24h := tdGet td "priceChange24h" (.num 0)
  let b1 ← pyNeqZero change1h
  let s ← if b1 then
            (format_percentage change1h).map (fun f => "🕐 **1H:** " ++ f ++ "\n")
          else .ok ""
  let b24 ← pyNeqZero change24h
  let s ← if b24 then
            (format_percentage change24h).map (fun f => s ++ "📅 **24H:** " ++ f ++ "\n")
          else .ok s
  .ok (s ++ "📆 **7D:** Coming soon")

/-- The sequence of `embed.add_field` calls of the per-address body
(src/main.py lines 330-497), by address type. -/
def embedFieldsFor (addrType : String) (td : PyDict) (address : List Char) :
    Except Unit (List EmbedFieldV) := do
  let branch ←
    if addrType = "Solana" then do
      let base ←
        if (tdGet td "success" .none).truthy then do
          let pi ← solPriceInfo td
          let pf ← perfInfo td
          Except.ok [⟨"💰 Market Data", pi⟩, ⟨"⏰ Performance", pf⟩,
                     ⟨"✅ Data Status", liveStatusValue⟩]
        else
          Except.ok [⟨"💰 Market Data", solNoDataValue⟩,
                     ⟨"ℹ️ Possible Reasons", possibleReasonsValue⟩,
                     ⟨"❌ Data Status", noDataStatusValue⟩]
      Except.ok (base ++ [⟨"🛡️ Safety Reminders", safetyRemindersValue⟩,
                          ⟨"🔗 Quick Access", solLinksValue address⟩])
    else if addrType = "EVM (Ethereum/BSC)" then do
      let base ←
        if (tdGet td "success" .none).truthy then do
          let pi ← evmPriceInfo td
          let pf ← perfInfo td
          Except.ok [⟨"💰 Market Data", pi⟩, ⟨"⏰ Performance", pf⟩,
                     ⟨"✅ Data Status", liveStatusValue⟩]
        else
          Except.ok [⟨"💰 Market Data", evmNoDataValue⟩,
                     ⟨"ℹ️ Possible Reasons", possibleReasonsValue⟩,
                     ⟨"❌ Data Status", noDataStatusValue⟩]
      Except.ok (base ++ [⟨"🔗 Quick Access", evmLinksValue address⟩])
    else if addrType = "URL" then
      Except.ok [⟨"🌐 URL Detected", urlWarningValue⟩]
    else
      Except.ok []
  .ok (branch ++ [⟨"⛓️ Blockchain", "**" ++ addrType ++ "**"⟩])

/-- Result of processing one detected `(address, type)` pair
(src/main.py lines 286-510): which chain resolvers were invoked, the final
`token_data` (starting from `{'success': False}` for non-Solana, non-EVM
types), and the embed fields of the reply (`.error` standing for an
exception caught by the per-address `except`, which sends an inline error
message instead). -/
structure MatchOutcome where
  resolverCalls : List String
  tokenData : PyDict
  embedFields : Except Unit (List EmbedFieldV)

/-- Process one detected match (src/main.py lines 286-510). -/
def processMatch (address : List Char) (addrType : String)
    (solE : SolEnv) (evmE : EvmEnv) : MatchOutcome :=
  let tdCalls :=
    if addrType = "Solana" then
      (get_solana_token_data (String.mk address) solE, ["solana"])
    else if addrType = "EVM (Ethereum/BSC)" then
      (get_evm_token_data (String.mk address) evmE, ["evm"])
    else
      (([("success", PyVal.bool false)] : PyDict), ([] : List String))
  { resolverCalls := tdCalls.2, tokenData := tdCalls.1,
    embedFields := embedFieldsFor addrType tdCalls.1 address }

/-- Observable actions of the handler, in order: the loading message, each
outbound resolver invocation, and the final reply (or the inline error
message when composing the reply raised). -/
inductive BotAction where
  | sendLoading (address : List Char) (addrType : String)
  | resolve (chain : String) (address : List Char)
  | reply (address : List Char) (addrType : String) (fields : List EmbedFieldV)
  | replyError (address : List Char) (addrType : String)

/-- Actions emitted while handling one detected match. -/
def actionsForMatch (address : List Char) (addrType : String)
    (solE : SolEnv) (evmE : EvmEnv) : List BotAction :=
  let o := processMatch address addrType solE evmE
  BotAction.sendLoading address addrType ::
    o.resolverCalls.map (fun c => BotAction.resolve c address)
    ++ [match o.embedFields with
        | .ok fs => BotAction.reply address addrType fs
        | .error _ => BotAction.replyError address addrType]

/-- `on_message` (src/main.py lines 270-519): nothing at all happens for the
bot's own messages; otherwise every detected match is processed sequentially,
each against its own upstream environment. -/
def on_message (authorIsBot : Bool) (content : List Char)
    (solE : List Char → SolEnv) (evmE : List Char → EvmEnv) : List BotAction :=
  if authorIsBot then []
  else (scanMessage content).flatMap (fun at_ => actionsForMatch at_.1 at_.2 (solE at_.1) (evmE at_.1))

/-!  Dictionary lemmas. -/

/-- The value an update list assigns to a key (last assignment wins),
if any. -/
def updVal : PyDict → String → Option PyVal
  | [], _ => Option.none
  | (k', v) :: rest, k => (updVal rest k).or (if k' = k then some v else Option.none)

theorem dictLookup_dictSet (d : PyDict) (k : String) (v : PyVal) (k' : String) :
    dictLookup (dictSet d k v) k' = if k = k' then some v else dictLookup d k' := by
  induction d with
  | nil => simp [dictSet, dictLookup]
  | cons hd tl ih =>
      obtain ⟨k1, v1⟩ := hd
      by_cases h1 : k1 = k
      · subst h1
        by_cases h2 : k1 = k'
        · subst h2; simp [dictSet, dictLookup]
        · simp [dictSet, dictLookup, h2]
      · by_cases h2 : k1 = k'
        · subst h2
          have : k ≠ k1 := fun h => h1 h.symm
          simp [dictSet, dictLookup, h1, this]
        · simp [dictSet, dictLookup, h1, h2, ih]

theorem dictLookup_dictUpdate (L : PyDict) (d : PyDict) (k : String) :
    dictLookup (dictUpdate d L) k = (updVal L k).or (dictLookup d k) := by
  induction L generalizing d with
  | nil => simp [dictUpdate, updVal]
  | cons hd tl ih =>
      obtain ⟨k1, v1⟩ := hd
      have step : dictUpdate d ((k1, v1) :: tl) = dictUpdate (dictSet d k1 v1) tl := rfl
      rw [step, ih, updVal, Option.or_assoc, dictLookup_dictSet]
      by_cases h : k1 = k
      · simp [h]
      · simp [h]

theorem pyFloat_num (x : ℚ) : pyFloat (PyVal.num x) = .ok x := rfl

theorem pyFloat_pyOr_num (x : ℚ) :
    pyFloat (pyOr (PyVal.num x) (PyVal.num 0)) = .ok x := by
  by_cases h : x = 0
  · subst h; simp [pyOr, PyVal.truthy, pyFloat]
  · simp [pyOr, PyVal.truthy, pyFloat, h]

/-!  Shape of the resolver results: whatever the three (resp. two) upstream
responses are, the returned `token_data` is the initial dictionary with the
same keys in the same order, a boolean under `success` and a number under
every numeric key — and, for the EVM resolver, no `fdv` key at all. -/

theorem sol_shape_dex (address : String) (env : SolEnv) (fd : DexFields)
    (h1 : dexAttempt extractDexFields env.dex = some fd) :
    get_solana_token_data address env =
      if pyEqStr fd.name "Unknown Token" then
        (match solscanAttempt env.solscan with
         | some ns =>
             dictUpdate (dictUpdate solInit (solDexUpdates fd)) [("name", ns.1), ("symbol", ns.2)]
         | Option.none => dictUpdate solInit (solDexUpdates fd))
      else dictUpdate solInit (solDexUpdates fd) := by
  simp only [get_solana_token_data]
  rw [h1]
  rfl

theorem sol_shape (address : String) (env : SolEnv) :
    ∃ (nv sv : PyVal) (p v c24 c1 l f m : ℚ) (b : Bool),
      get_solana_token_data address env =
        [("name", nv), ("symbol", sv), ("price", .num p), ("volume24h", .num v),
         ("priceChange24h", .num c24), ("priceChange1h", .num c1),
         ("liquidity", .num l), ("fdv", .num f), ("marketCap", .num m),
         ("success", .bool b)] := by
  rcases h1 : dexAttempt extractDexFields env.dex with _ | fd
  · rcases h2 : jupAttempt address env.jup with _ | q
    · rcases h3 : solscanAttempt env.solscan with _ | ns
      · exact ⟨.str "Unknown Token", .str "UNKNOWN", 0, 0, 0, 0, 0, 0, 0, false, by
          simp only [get_solana_token_data]; rw [h1, h2, h3]; rfl⟩
      · exact ⟨ns.1, ns.2, 0, 0, 0, 0, 0, 0, 0, false, by
          simp only [get_solana_token_data]; rw [h1, h2, h3]; rfl⟩
    · rcases h3 : solscanAttempt env.solscan with _ | ns
      · exact ⟨.str "Unknown Token", .str "UNKNOWN", q, 0, 0, 0, 0, 0, 0, true, by
          simp only [get_solana_token_data]; rw [h1, h2, h3]; rfl⟩
      · exact ⟨ns.1, ns.2, q, 0, 0, 0, 0, 0, 0, true, by
          simp only [get_solana_token_data]; rw [h1, h2, h3]; rfl⟩
  · rw [sol_shape_dex address env fd h1]
    by_cases hn : pyEqStr fd.name "Unknown Token"
    · rcases h3 : solscanAttempt env.solscan with _ | ns
      · exact ⟨fd.name, fd.symbol, fd.price, fd.volume24h, fd.priceChange24h,
          fd.priceChange1h, fd.liquidity, fd.fdv, fd.marketCap, true, by rw [if_pos hn]; rfl⟩
      · exact ⟨ns.1, ns.2, fd.price, fd.volume24h, fd.priceChange24h,
          fd.priceChange1h, fd.liquidity, fd.fdv, fd.marketCap, true, by rw [if_pos hn]; rfl⟩
    · exact ⟨fd.name, fd.symbol, fd.price, fd.volume24h, fd.priceChange24h,
        fd.priceChange1h, fd.liquidity, fd.fdv, fd.marketCap, true, by rw [if_neg hn]; rfl⟩

theorem evm_shape (address : String) (env : EvmEnv) :
    ∃ (nv sv : PyVal) (p v c24 c1 l m : ℚ) (b : Bool),
      get_evm_token_data address env =
        [("name", nv), ("symbol", sv), ("price", .num p), ("volume24h", .num v),
         ("priceChange24h", .num c24), ("priceChange1h", .num c1),
         ("liquidity", .num l), ("marketCap", .num m), ("success", .bool b)] := by
  rcases h1 : dexAttempt extractEvmDexFields env.dex with _ | fd
  · rcases h2 : geckoAttempt address env.gecko with _ | gf
    · exact ⟨.str "Unknown Token", .str "UNKNOWN", 0, 0, 0, 0, 0, 0, false, by
        simp only [get_evm_token_data]; rw [h1, h2]; rfl⟩
    · exact ⟨.str "Unknown Token", .str "UNKNOWN", gf.price, gf.volume24h,
        gf.priceChange24h, 0, 0, gf.marketCap, true, by
        simp only [get_evm_token_data]; rw [h1, h2]; rfl⟩
  · exact ⟨fd.name, fd.symbol, fd.price, fd.volume24h, fd.priceChange24h,
      fd.priceChange1h, fd.liquidity, fd.marketCap, true, by
      simp only [get_evm_token_data]; rw [h1]; rfl⟩

/-!  Claim C2. -/

/-- C2, counterexample: the claim asserts that for every chain kind the
returned record carries all seven numeric fields including `fdv`.  For the
EVM chain this fails: with both upstream sources down, `get_evm_token_data`
returns its initial dictionary, which has no `fdv` key at all (its `found`
flag is the `success` entry, present and `False`), because the EVM
initializer (src/main.py lines 177-187) and both EVM update sites never
mention `fdv`. -/
theorem c2_counterexample :
    dictLookup (get_evm_token_data "0x0000000000000000000000000000000000000000"
      ⟨.err, .err⟩) "fdv" = Option.none ∧
    dictLookup (get_evm_token_data "0x0000000000000000000000000000000000000000"
      ⟨.err, .err⟩) "success" = some (.bool false) := by
  constructor <;> rfl

/-- C2, amended: for every address and every combination of upstream
responses (network failures, timeouts, non-200 statuses, unparseable bodies,
arbitrary malformed JSON values), both resolvers return a record — they never
raise, every fallible step being modelled inside `Except` and caught — with a
boolean `success` and a numeric value under each numeric field, except that
the EVM record has no `fdv` entry at all; when every source fails, the
records are exactly the all-default initial dictionaries (numeric fields 0,
`success = False`). -/
theorem c2_amended_claim (address : String) (envS : SolEnv) (envE : EvmEnv) :
    ((∃ q, dictLookup (get_solana_token_data address envS) "price" = some (.num q)) ∧
     (∃ q, dictLookup (get_solana_token_data address envS) "volume24h" = some (.num q)) ∧
     (∃ q, dictLookup (get_solana_token_data address envS) "liquidity" = some (.num q)) ∧
     (∃ q, dictLookup (get_solana_token_data address envS) "fdv" = some (.num q)) ∧
     (∃ q, dictLookup (get_solana_token_data address envS) "marketCap" = some (.num q)) ∧
     (∃ q, dictLookup (get_solana_token_data address envS) "priceChange1h" = some (.num q)) ∧
     (∃ q, dictLookup (get_solana_token_data address envS) "priceChange24h" = some (.num q)) ∧
     (∃ b, dictLookup (get_solana_token_data address envS) "success" = some (.bool b))) ∧
    ((∃ q, dictLookup (get_evm_token_data address envE) "price" = some (.num q)) ∧
     (∃ q, dictLookup (get_evm_token_data address envE) "volume24h" = some (.num q)) ∧
     (∃ q, dictLookup (get_evm_token_data address envE) "liquidity" = some (.num q)) ∧
     (∃ q, dictLookup (get_evm_token_data address envE) "marketCap" = some (.num q)) ∧
     (∃ q, dictLookup (get_evm_token_data address envE) "priceChange1h" = some (.num q)) ∧
     (∃ q, dictLookup (get_evm_token_data address envE) "priceChange24h" = some (.num q)) ∧
     (∃ b, dictLookup (get_evm_token_data address envE) "success" = some (.bool b)) ∧
     dictLookup (get_evm_token_data address envE) "fdv" = Option.none) ∧
    get_solana_token_data address ⟨.err, .err, .err⟩ = solInit ∧
    get_evm_token_data address ⟨.err, .err⟩ = evmInit := by
  obtain ⟨nv, sv, p, v, c24, c1, l, f, m, b, hS⟩ := sol_shape address envS
  obtain ⟨nv', sv', p', v', c24', c1', l', m', b', hE⟩ := evm_shape address envE
  rw [hS, hE]
  exact ⟨⟨⟨p, rfl⟩, ⟨v, rfl⟩, ⟨l, rfl⟩, ⟨f, rfl⟩, ⟨m, rfl⟩, ⟨c1, rfl⟩, ⟨c24, rfl⟩, ⟨b, rfl⟩⟩,
    ⟨⟨p', rfl⟩, ⟨v', rfl⟩, ⟨l', rfl⟩, ⟨m', rfl⟩, ⟨c1', rfl⟩, ⟨c24', rfl⟩, ⟨b', rfl⟩, rfl⟩,
    rfl, rfl⟩

/-!  Claim C3: selection of the most liquid pair. -/

/-- A well-formed pair of the DEX aggregation response schema (spec section
6), with the exact keys the source reads. -/
structure PairSpec where
  name : String
  symbol : String
  priceUsd : ℚ
  vol24 : ℚ
  liqUsd : ℚ
  fdvQ : ℚ
  mcap : ℚ
  ch24 : ℚ
  ch1 : ℚ

/-- The JSON object of a well-formed pair. -/
def PairSpec.toVal (p : PairSpec) : PyVal :=
  .dict [("baseToken", .dict [("name", .str p.name), ("symbol", .str p.symbol)]),
         ("priceUsd", .num p.priceUsd), ("volume", .dict [("h24", .num p.vol24)]),
         ("liquidity", .dict [("usd", .num p.liqUsd)]), ("fdv", .num p.fdvQ),
         ("marketCap", .num p.mcap),
         ("priceChange", .dict [("h24", .num p.ch24), ("h1", .num p.ch1)])]

/-- Reference selection: the first pair of maximal `liqUsd` (a later pair
replaces the current choice only when strictly more liquid). -/
def selectMostLiquid (p : PairSpec) : List PairSpec → PairSpec
  | [] => p
  | q :: rest =>
      if p.liqUsd < q.liqUsd then selectMostLiquid q rest else selectMostLiquid p rest

theorem exceptBind_ok {α β : Type} (a : α) (f : α → Except Unit β) :
    (Except.ok a >>= f) = f a := rfl

theorem pairLiquidity_toVal (p : PairSpec) :
    pairLiquidity p.toVal = .ok p.liqUsd := by
  have h : pairLiquidity p.toVal = pyFloat (pyOr (.num p.liqUsd) (.num 0)) := rfl
  rw [h, pyFloat_pyOr_num]

theorem maxByLiquidityGo_toVal (p : PairSpec) (ps : List PairSpec) :
    maxByLiquidityGo p.toVal p.liqUsd (ps.map PairSpec.toVal) =
      .ok (selectMostLiquid p ps).toVal := by
  induction ps generalizing p with
  | nil => rfl
  | cons q rest ih =>
      have step : maxByLiquidityGo p.toVal p.liqUsd ((q :: rest).map PairSpec.toVal) =
          (pairLiquidity q.toVal).bind (fun k =>
            if p.liqUsd < k then maxByLiquidityGo q.toVal k (rest.map PairSpec.toVal)
            else maxByLiquidityGo p.toVal p.liqUsd (rest.map PairSpec.toVal)) := rfl
      rw [step, pairLiquidity_toVal]
      by_cases h : p.liqUsd < q.liqUsd
      · simp only [Except.bind, selectMostLiquid, if_pos h, ih]
      · simp only [Except.bind, selectMostLiquid, if_neg h, ih]

theorem maxByLiquidity_toVal (p : PairSpec) (ps : List PairSpec) :
    maxByLiquidity ((p :: ps).map PairSpec.toVal) = .ok (selectMostLiquid p ps).toVal := by
  have step : maxByLiquidity ((p :: ps).map PairSpec.toVal) =
      (pairLiquidity p.toVal).bind (fun k =>
        maxByLiquidityGo p.toVal k (ps.map PairSpec.toVal)) := rfl
  rw [step, pairLiquidity_toVal]
  exact maxByLiquidityGo_toVal p ps

theorem extractDexFields_toVal (q : PairSpec) :
    extractDexFields q.toVal =
      .ok ⟨.str q.name, .str q.symbol, q.priceUsd, q.vol24, q.liqUsd, q.fdvQ,
           q.mcap, q.ch24, q.ch1⟩ := by
  simp [extractDexFields, PairSpec.toVal, pyGet, tdGet, dictLookup, exceptBind_ok,
    pyFloat_pyOr_num]

theorem exceptBindE_ok {α β : Type} (a : α) (f : α → Except Unit β) :
    Except.bind (Except.ok a) f = f a := rfl

theorem extractEvmDexFields_toVal (q : PairSpec) :
    extractEvmDexFields q.toVal =
      .ok ⟨.str q.name, .str q.symbol, q.priceUsd, q.vol24, q.liqUsd,
           q.mcap, q.ch24, q.ch1⟩ := by
  simp [extractEvmDexFields, PairSpec.toVal, pyGet, tdGet, dictLookup, exceptBind_ok,
    pyFloat_pyOr_num]

/-- When DexScreener succeeds, the Jupiter branch is skipped (`success` is
truthy) and the Solscan branch leaves the record unchanged whatever the
selected pair's name is, since its upstream response is a network error. -/
theorem sol_dex_only (address : String) (dexU jupU : Upstream) (fd : DexFields)
    (h : dexAttempt extractDexFields dexU = some fd) :
    get_solana_token_data address ⟨dexU, jupU, .err⟩ =
      dictUpdate solInit (solDexUpdates fd) := by
  rw [sol_shape_dex address ⟨dexU, jupU, .err⟩ fd h]
  exact ite_self _

/-- When DexScreener succeeds, the CoinGecko branch is skipped. -/
theorem evm_dex_only (address : String) (dexU geckoU : Upstream) (fd : EvmDexFields)
    (h : dexAttempt extractEvmDexFields dexU = some fd) :
    get_evm_token_data address ⟨dexU, geckoU⟩ = dictUpdate evmInit (evmDexUpdates fd) := by
  simp only [get_evm_token_data]
  rw [h]
  rfl

theorem dexAttempt_pairs (p : PairSpec) (ps : List PairSpec) :
    dexAttempt extractDexFields
        (.resp 200 (some (.dict [("pairs", .list ((p :: ps).map PairSpec.toVal))]))) =
      some ⟨.str (selectMostLiquid p ps).name, .str (selectMostLiquid p ps).symbol,
            (selectMostLiquid p ps).priceUsd, (selectMostLiquid p ps).vol24,
            (selectMostLiquid p ps).liqUsd, (selectMostLiquid p ps).fdvQ,
            (selectMostLiquid p ps).mcap, (selectMostLiquid p ps).ch24,
            (selectMostLiquid p ps).ch1⟩ := by
  have h0 : dexAttempt extractDexFields
      (.resp 200 (some (.dict [("pairs", .list ((p :: ps).map PairSpec.toVal))]))) =
      runSource (Except.bind (maxByLiquidity ((p :: ps).map PairSpec.toVal))
        extractDexFields) := rfl
  rw [h0, maxByLiquidity_toVal, exceptBindE_ok, extractDexFields_toVal]
  rfl

theorem dexAttemptEvm_pairs (p : PairSpec) (ps : List PairSpec) :
    dexAttempt extractEvmDexFields
        (.resp 200 (some (.dict [("pairs", .list ((p :: ps).map PairSpec.toVal))]))) =
      some ⟨.str (selectMostLiquid p ps).name, .str (selectMostLiquid p ps).symbol,
            (selectMostLiquid p ps).priceUsd, (selectMostLiquid p ps).vol24,
            (selectMostLiquid p ps).liqUsd,
            (selectMostLiquid p ps).mcap, (selectMostLiquid p ps).ch24,
            (selectMostLiquid p ps).ch1⟩ := by
  have h0 : dexAttempt extractEvmDexFields
      (.resp 200 (some (.dict [("pairs", .list ((p :: ps).map PairSpec.toVal))]))) =
      runSource (Except.bind (maxByLiquidity ((p :: ps).map PairSpec.toVal))
        extractEvmDexFields) := rfl
  rw [h0, maxByLiquidity_toVal, exceptBindE_ok, extractEvmDexFields_toVal]
  rfl

theorem solDex_explicit (f : DexFields) :
    dictUpdate solInit (solDexUpdates f) =
      [("name", f.name), ("symbol", f.symbol), ("price", .num f.price),
       ("volume24h", .num f.volume24h), ("priceChange24h", .num f.priceChange24h),
       ("priceChange1h", .num f.priceChange1h), ("liquidity", .num f.liquidity),
       ("fdv", .num f.fdv), ("marketCap", .num f.marketCap),
       ("success", .bool true)] := rfl

theorem evmDex_explicit (f : EvmDexFields) :
    dictUpdate evmInit (evmDexUpdates f) =
      [("name", f.name), ("symbol", f.symbol), ("price", .num f.price),
       ("volume24h", .num f.volume24h), ("priceChange24h", .num f.priceChange24h),
       ("priceChange1h", .num f.priceChange1h), ("liquidity", .num f.liquidity),
       ("marketCap", .num f.marketCap), ("success", .bool true)] := rfl

/-- The low-liquidity pair of the concrete C3 instance (liquidity 100). -/
def pairLowLiq : PairSpec := ⟨"A", "ALPHA", 1, 2, 100, 3, 4, 5, 6⟩

/-- The high-liquidity pair of the concrete C3 instance (liquidity 50000). -/
def pairHighLiq : PairSpec := ⟨"B", "BETA", 7, 8, 50000, 9, 10, 11, 12⟩

/-- C3: for every nonempty well-formed pair list returned by the DEX
aggregation source, both resolvers select the pair with the highest USD
liquidity (first seen on ties, as `selectMostLiquid` replaces the current
choice only on strictly greater liquidity), fill name, symbol, price, 24h
volume, liquidity, FDV (Solana only), market cap and the 1h/24h changes from
that single pair and set `success` (the record's found flag) to `True`; in
particular, with two pairs of liquidity 100 and 50000, the 50000-liquidity
pair's fields are taken. -/
theorem c3_claim (address : String) (p : PairSpec) (ps : List PairSpec) :
    (dictLookup (get_solana_token_data address
        ⟨.resp 200 (some (.dict [("pairs", .list ((p :: ps).map PairSpec.toVal))])),
         .err, .err⟩) "name" = some (.str (selectMostLiquid p ps).name) ∧
     dictLookup (get_solana_token_data address
        ⟨.resp 200 (some (.dict [("pairs", .list ((p :: ps).map PairSpec.toVal))])),
         .err, .err⟩) "symbol" = some (.str (selectMostLiquid p ps).symbol) ∧
     dictLookup (get_solana_token_data address
        ⟨.resp 200 (some (.dict [("pairs", .list ((p :: ps).map PairSpec.toVal))])),
         .err, .err⟩) "price" = some (.num (selectMostLiquid p ps).priceUsd) ∧
     dictLookup (get_solana_token_data address
        ⟨.resp 200 (some (.dict [("pairs", .list ((p :: ps).map PairSpec.toVal))])),
         .err, .err⟩) "volume24h" = some (.num (selectMostLiquid p ps).vol24) ∧
     dictLookup (get_solana_token_data address
        ⟨.resp 200 (some (.dict [("pairs", .list ((p :: ps).map PairSpec.toVal))])),
         .err, .err⟩) "liquidity" = some (.num (selectMostLiquid p ps).liqUsd) ∧
     dictLookup (get_solana_token_data address
        ⟨.resp 200 (some (.dict [("pairs", .list ((p :: ps).map PairSpec.toVal))])),
         .err, .err⟩) "fdv" = some (.num (selectMostLiquid p ps).fdvQ) ∧
     dictLookup (get_solana_token_data address
        ⟨.resp 200 (some (.dict [("pairs", .list ((p :: ps).map PairSpec.toVal))])),
         .err, .err⟩) "marketCap" = some (.num (selectMostLiquid p ps).mcap) ∧
     dictLookup (get_solana_token_data address
        ⟨.resp 200 (some (.dict [("pairs", .list ((p :: ps).map PairSpec.toVal))])),
         .err, .err⟩) "priceChange1h" = some (.num (selectMostLiquid p ps).ch1) ∧
     dictLookup (get_solana_token_data address
        ⟨.resp 200 (some (.dict [("pairs", .list ((p :: ps).map PairSpec.toVal))])),
         .err, .err⟩) "priceChange24h" = some (.num (selectMostLiquid p ps).ch24) ∧
     dictLookup (get_solana_token_data address
        ⟨.resp 200 (some (.dict [("pairs", .list ((p :: ps).map PairSpec.toVal))])),
         .err, .err⟩) "success" = some (.bool true)) ∧
    (dictLookup (get_evm_token_data address
        ⟨.resp 200 (some (.dict [("pairs", .list ((p :: ps).map PairSpec.toVal))])),
         .err⟩) "name" = some (.str (selectMostLiquid p ps).name) ∧
     dictLookup (get_evm_token_data address
        ⟨.resp 200 (some (.dict [("pairs", .list ((p :: ps).map PairSpec.toVal))])),
         .err⟩) "symbol" = some (.str (selectMostLiquid p ps).symbol) ∧
     dictLookup (get_evm_token_data address
        ⟨.resp 200 (some (.dict [("pairs", .list ((p :: ps).map PairSpec.toVal))])),
         .err⟩) "price" = some (.num (selectMostLiquid p ps).priceUsd) ∧
     dictLookup (get_evm_token_data address
        ⟨.resp 200 (some (.dict [("pairs", .list ((p :: ps).map PairSpec.toVal))])),
         .err⟩) "volume24h" = some (.num (selectMostLiquid p ps).vol24) ∧
     dictLookup (get_evm_token_data address
        ⟨.resp 200 (some (.dict [("pairs", .list ((p :: ps).map PairSpec.toVal))])),
         .err⟩) "liquidity" = some (.num (selectMostLiquid p ps).liqUsd) ∧
     dictLookup (get_evm_token_data address
        ⟨.resp 200 (some (.dict [("pairs", .list ((p :: ps).map PairSpec.toVal))])),
         .err⟩) "marketCap" = some (.num (selectMostLiquid p ps).mcap) ∧
     dictLookup (get_evm_token_data address
        ⟨.resp 200 (some (.dict [("pairs", .list ((p :: ps).map PairSpec.toVal))])),
         .err⟩) "priceChange1h" = some (.num (selectMostLiquid p ps).ch1) ∧
     dictLookup (get_evm_token_data address
        ⟨.resp 200 (some (.dict [("pairs", .list ((p :: ps).map PairSpec.toVal))])),
         .err⟩) "priceChange24h" = some (.num (selectMostLiquid p ps).ch24) ∧
     dictLookup (get_evm_token_data address
        ⟨.resp 200 (some (.dict [("pairs", .list ((p :: ps).map PairSpec.toVal))])),
         .err⟩) "success" = some (.bool true)) ∧
    (dictLookup (get_solana_token_data address
        ⟨.resp 200 (some (.dict [("pairs", .list [pairLowLiq.toVal, pairHighLiq.toVal])])),
         .err, .err⟩) "name" = some (.str "B") ∧
     dictLookup (get_solana_token_data address
        ⟨.resp 200 (some (.dict [("pairs", .list [pairLowLiq.toVal, pairHighLiq.toVal])])),
         .err, .err⟩) "liquidity" = some (.num 50000) ∧
     dictLookup (get_solana_token_data address
        ⟨.resp 200 (some (.dict [("pairs", .list [pairLowLiq.toVal, pairHighLiq.toVal])])),
         .err, .err⟩) "price" = some (.num 7) ∧
     dictLookup (get_solana_token_data address
        ⟨.resp 200 (some (.dict [("pairs", .list [pairLowLiq.toVal, pairHighLiq.toVal])])),
         .err, .err⟩) "success" = some (.bool true)) := by
  rw [sol_dex_only address _ Upstream.err _ (dexAttempt_pairs p ps),
      evm_dex_only address _ Upstream.err _ (dexAttemptEvm_pairs p ps)]
  have hd : dexAttempt extractDexFields
      (.resp 200 (some (.dict [("pairs", .list [pairLowLiq.toVal, pairHighLiq.toVal])]))) =
      some ⟨.str "B", .str "BETA", 7, 8, 50000, 9, 10, 11, 12⟩ := by
    have h := dexAttempt_pairs pairLowLiq [pairHighLiq]
    have hsel : selectMostLiquid pairLowLiq [pairHighLiq] = pairHighLiq := by
      norm_num [selectMostLiquid, pairLowLiq, pairHighLiq]
    rw [hsel] at h
    simpa [pairLowLiq, pairHighLiq] using h
  rw [sol_dex_only address _ Upstream.err _ hd, solDex_explicit, solDex_explicit,
      evmDex_explicit]
  exact ⟨⟨rfl, rfl, rfl, rfl, rfl, rfl, rfl, rfl, rfl, rfl⟩,
         ⟨rfl, rfl, rfl, rfl, rfl, rfl, rfl, rfl, rfl⟩,
         ⟨rfl, rfl, rfl, rfl⟩⟩

/-!  Claims C4, C5, C6: the fallback chains. -/

/-- A 200 DexScreener response whose `pairs` list is empty. -/
def emptyPairsResp : Upstream := .resp 200 (some (.dict [("pairs", .list [])]))

/-- A 200 Jupiter response with no record for any address. -/
def jupNoRecordResp : Upstream := .resp 200 (some (.dict [("data", .dict [])]))

/-- A 200 Solscan metadata response carrying a name and a symbol. -/
def solscanMetaResp (name symbol : String) : Upstream :=
  .resp 200 (some (.dict [("name", .str name), ("symbol", .str symbol)]))

/-- A 200 Jupiter response with a price record for `address`. -/
def jupPriceResp (address : String) (q : ℚ) : Upstream :=
  .resp 200 (some (.dict [("data", .dict [(address, .dict [("price", .num q)])])]))

theorem jupAttempt_price (address : String) (q : ℚ) :
    jupAttempt address (jupPriceResp address q) = some q := by
  simp [jupPriceResp, jupAttempt, pyGet, tdGet, dictLookup, PyVal.truthy, runSource,
    pyFloat, Except.bind]

/-- C4: for a Solana address whose DexScreener response has an empty `pairs`
list and whose Jupiter response has no record, the resolver falls through to
the Solscan metadata lookup: a metadata response fills `name` and `symbol`
while `success` (the found flag) stays `False` — and whatever the Solscan
response is, this last step never sets `success`. -/
theorem c4_claim (address name symbol : String) (u : Upstream) :
    (dictLookup (get_solana_token_data address
        ⟨emptyPairsResp, jupNoRecordResp, solscanMetaResp name symbol⟩) "success" =
          some (.bool false) ∧
     dictLookup (get_solana_token_data address
        ⟨emptyPairsResp, jupNoRecordResp, solscanMetaResp name symbol⟩) "name" =
          some (.str name) ∧
     dictLookup (get_solana_token_data address
        ⟨emptyPairsResp, jupNoRecordResp, solscanMetaResp name symbol⟩) "symbol" =
          some (.str symbol)) ∧
    dictLookup (get_solana_token_data address
        ⟨emptyPairsResp, jupNoRecordResp, u⟩) "success" = some (.bool false) := by
  refine ⟨⟨rfl, rfl, rfl⟩, ?_⟩
  rcases h : solscanAttempt u with _ | ns
  · simp only [get_solana_token_data]
    rw [h]
    rfl
  · simp only [get_solana_token_data]
    rw [h]
    rfl

/-- C5: for a Solana address for which DexScreener yielded nothing, a Jupiter
record containing any numeric price — zero included — sets that price and
`success = True` (the `if price_data:` guard tests the record, not the price,
so no liquidity- or value-based criterion is applied). -/
theorem c5_claim (address : String) (q : ℚ) :
    dictLookup (get_solana_token_data address
        ⟨emptyPairsResp, jupPriceResp address q, .err⟩) "price" = some (.num q) ∧
    dictLookup (get_solana_token_data address
        ⟨emptyPairsResp, jupPriceResp address q, .err⟩) "success" = some (.bool true) := by
  constructor <;>
    · simp only [get_solana_token_data]
      rw [jupAttempt_price]
      rfl

/-- A 200 CoinGecko response with a full record under the given key. -/
def geckoRecordResp (key : String) (p c v m : ℚ) : Upstream :=
  .resp 200 (some (.dict [(key, .dict [("usd", .num p), ("usd_24h_change", .num c),
    ("usd_24h_vol", .num v), ("usd_market_cap", .num m)])]))

theorem geckoAttempt_record (address : String) (p c v m : ℚ) :
    geckoAttempt address (geckoRecordResp (strLower address) p c v m) =
      some ⟨p, c, v, m⟩ := by
  simp [geckoRecordResp, geckoAttempt, pyGet, tdGet, dictLookup, PyVal.truthy, runSource,
    pyFloat_num, pyFloat_pyOr_num, Except.bind, exceptBind_ok]

/-- C6: for an EVM address for which DexScreener yielded no pairs, the
CoinGecko price index is consulted under the lower-cased address: a record
there sets `success = True` together with price, 24h change, 24h volume and
market cap; an empty response leaves `success = False`; and a record stored
under a key that is not the lower-cased address (concretely a record under
`"0xAB"` for address `"0xAB"`, whose lower-casing is `"0xab"`) is not found,
leaving `success = False`. -/
theorem c6_claim (address : String) (p c v m : ℚ) :
    (dictLookup (get_evm_token_data address
        ⟨emptyPairsResp, geckoRecordResp (strLower address) p c v m⟩) "success" =
          some (.bool true) ∧
     dictLookup (get_evm_token_data address
        ⟨emptyPairsResp, geckoRecordResp (strLower address) p c v m⟩) "price" =
          some (.num p) ∧
     dictLookup (get_evm_token_data address
        ⟨emptyPairsResp, geckoRecordResp (strLower address) p c v m⟩) "priceChange24h" =
          some (.num c) ∧
     dictLookup (get_evm_token_data address
        ⟨emptyPairsResp, geckoRecordResp (strLower address) p c v m⟩) "volume24h" =
          some (.num v) ∧
     dictLookup (get_evm_token_data address
        ⟨emptyPairsResp, geckoRecordResp (strLower address) p c v m⟩) "marketCap" =
          some (.num m)) ∧
    dictLookup (get_evm_token_data address
        ⟨emptyPairsResp, .resp 200 (some (.dict []))⟩) "success" = some (.bool false) ∧
    dictLookup (get_evm_token_data "0xAB"
        ⟨emptyPairsResp, geckoRecordResp "0xAB" p c v m⟩) "success" =
      some (.bool false) := by
  refine ⟨?_, rfl, ?_⟩
  · have h := geckoAttempt_record address p c v m
    refine ⟨?_, ?_, ?_, ?_, ?_⟩ <;>
      · simp only [get_evm_token_data]
        rw [h]
        rfl
  · have hg : geckoAttempt "0xAB" (geckoRecordResp "0xAB" p c v m) = Option.none := rfl
    simp only [get_evm_token_data]
    rw [hg]
    rfl

/-!  Structural properties of the scanners. -/

theorem scanGas_nil (f : List Char → Option (List Char)) (gas i : Nat) :
    scanGas f gas i [] = [] := by
  cases gas <;> rfl

theorem scanGas_match (f : List Char → Option (List Char)) (gas i : Nat)
    (c : Char) (cs m : List Char) (h : f (c :: cs) = some m) :
    scanGas f (gas + 1) i (c :: cs) =
      (i, m) :: scanGas f gas (i + m.length) ((c :: cs).drop m.length) := by
  simp [scanGas, h]

theorem scanGas_skip (f : List Char → Option (List Char)) (gas i : Nat)
    (c : Char) (cs : List Char) (h : f (c :: cs) = Option.none) :
    scanGas f (gas + 1) i (c :: cs) = scanGas f gas (i + 1) cs := by
  simp [scanGas, h]

/-- Every match a scanner emits comes from a successful anchored match. -/
theorem scanGas_mem (f : List Char → Option (List Char)) :
    ∀ (gas i : Nat) (l : List Char) (p : Nat × List Char),
      p ∈ scanGas f gas i l → ∃ l', f l' = some p.2 := by
  intro gas
  induction gas with
  | zero => intro i l p hp; simp [scanGas] at hp
  | succ g ih =>
      intro i l p hp
      cases l with
      | nil => simp [scanGas] at hp
      | cons c cs =>
          rcases hm : f (c :: cs) with _ | m
          · rw [scanGas_skip f g i c cs hm] at hp
            exact ih _ _ _ hp
          · rw [scanGas_match f g i c cs m hm] at hp
            rcases List.mem_cons.mp hp with hp | hp
            · exact ⟨c :: cs, by rw [hp]; exact hm⟩
            · exact ih _ _ _ hp

/-- When every anchored match is nonempty, the emitted positions are
strictly increasing (within-pattern text order) and bounded below by the
start position. -/
theorem scanGas_mono (f : List Char → Option (List Char))
    (hf : ∀ l m, f l = some m → 1 ≤ m.length) :
    ∀ (gas i : Nat) (l : List Char),
      List.Chain' (fun a b => a.1 < b.1) (scanGas f gas i l) ∧
        ∀ p ∈ scanGas f gas i l, i ≤ p.1 := by
  intro gas
  induction gas with
  | zero => intro i l; simp [scanGas]
  | succ g ih =>
      intro i l
      cases l with
      | nil => simp [scanGas_nil]
      | cons c cs =>
          rcases hm : f (c :: cs) with _ | m
          · rw [scanGas_skip f g i c cs hm]
            exact ⟨(ih (i + 1) cs).1, fun p hp =>
              le_trans (Nat.le_succ i) ((ih (i + 1) cs).2 p hp)⟩
          · rw [scanGas_match f g i c cs m hm]
            constructor
            · refine List.chain'_cons'.mpr ⟨fun b hb => ?_, (ih _ _).1⟩
              have hb' := (ih (i + m.length) ((c :: cs).drop m.length)).2 b
                (List.mem_of_mem_head? hb)
              have h1 := hf (c :: cs) m hm
              omega
            · intro p hp
              rcases List.mem_cons.mp hp with hp | hp
              · simp [hp]
              · have := (ih (i + m.length) ((c :: cs).drop m.length)).2 p hp
                omega

theorem solMatchAt_length (l m : List Char) (h : solMatchAt l = some m) :
    1 ≤ m.length := by
  simp only [solMatchAt] at h
  split at h
  · rename_i hrun
    cases h
    simp only [List.length_take]
    omega
  · cases h

theorem evmMatchAt_length (l m : List Char) (h : evmMatchAt l = some m) :
    1 ≤ m.length := by
  simp only [evmMatchAt] at h
  split at h
  · split at h
    · cases h; simp
    · cases h
  · cases h

theorem urlMatchAt_length (l m : List Char) (h : urlMatchAt l = some m) :
    1 ≤ m.length := by
  simp only [urlMatchAt] at h
  split at h
  · split at h
    · cases h
    · rename_i h8 hbody
      cases h
      simp [h8]
  · split at h
    · split at h
      · cases h
      · rename_i h7 hbody
        cases h
        simp [h7]
    · cases h

/-!  Every emitted match is a full match of its own pattern. -/

theorem solMatchAt_fullmatch (l m : List Char) (h : solMatchAt l = some m) :
    solanaFullmatch m = true := by
  simp only [solMatchAt] at h
  split at h
  · rename_i hrun
    cases h
    have hlen : (List.take 44 (l.takeWhile isBase58)).length = min 44 (l.takeWhile isBase58).length := by
      simp [List.length_take]
    have hall : ∀ c ∈ List.take 44 (l.takeWhile isBase58), isBase58 c = true := fun c hc =>
      List.mem_takeWhile_imp (List.take_subset _ _ hc)
    simp only [solanaFullmatch, Bool.and_eq_true, decide_eq_true_eq, List.all_eq_true]
    refine ⟨⟨by omega, by omega⟩, hall⟩
  · cases h

theorem evmMatchAt_fullmatch (l m : List Char) (h : evmMatchAt l = some m) :
    evmFullmatch m = true := by
  simp only [evmMatchAt] at h
  split at h
  · rename_i c1 c2 rest
    split at h
    · rename_i hcond
      cases h
      simp only [Bool.and_eq_true, decide_eq_true_eq] at hcond
      obtain ⟨⟨⟨h0, hx⟩, hlen⟩, hhex⟩ := hcond
      simp only [evmFullmatch, h0, hx, Bool.and_eq_true, decide_eq_true_eq]
      refine ⟨⟨⟨by simp, by simp⟩, by simp [List.length_take]; omega⟩, hhex⟩
    · cases h
  · cases h

theorem urlMatchAt_fullmatch (l m : List Char) (h : urlMatchAt l = some m) :
    urlFullmatch m = true := by
  simp only [urlMatchAt] at h
  split at h
  · rename_i h8
    split at h
    · cases h
    · rename_i hbody
      cases h
      rw [h8]
      have ht : ((['h', 't', 't', 'p', 's', ':', '/', '/'] : List Char) ++
          (l.drop 8).takeWhile (fun c => !(isPySpace c))).take 8 =
          ['h', 't', 't', 'p', 's', ':', '/', '/'] := List.take_left' rfl
      have hd : ((['h', 't', 't', 'p', 's', ':', '/', '/'] : List Char) ++
          (l.drop 8).takeWhile (fun c => !(isPySpace c))).drop 8 =
          (l.drop 8).takeWhile (fun c => !(isPySpace c)) := List.drop_left' rfl
      simp only [urlFullmatch, ht, hd, if_pos]
      simp only [Bool.and_eq_true, Bool.not_eq_true']
      refine ⟨by simpa using hbody, List.all_eq_true.mpr (fun c hc => ?_)⟩
      simpa using List.mem_takeWhile_imp hc
  · split at h
    · rename_i h8 h7
      split at h
      · cases h
      · rename_i hbody
        cases h
        rw [h7]
        have ht : ((['h', 't', 't', 'p', ':', '/', '/'] : List Char) ++
            (l.drop 7).takeWhile (fun c => !(isPySpace c))).take 7 =
            ['h', 't', 't', 'p', ':', '/', '/'] := List.take_left' rfl
        have hd : ((['h', 't', 't', 'p', ':', '/', '/'] : List Char) ++
            (l.drop 7).takeWhile (fun c => !(isPySpace c))).drop 7 =
            (l.drop 7).takeWhile (fun c => !(isPySpace c)) := List.drop_left' rfl
        have hne8 : ¬ (((['h', 't', 't', 'p', ':', '/', '/'] : List Char) ++
            (l.drop 7).takeWhile (fun c => !(isPySpace c))).take 8 =
            ['h', 't', 't', 'p', 's', ':', '/', '/']) := by
          intro hcontra
          have h4 := congrArg (fun xs => xs[4]?) hcontra
          simp [List.getElem?_append] at h4
        simp only [urlFullmatch, if_neg hne8, ht, hd, if_pos]
        simp only [Bool.and_eq_true, Bool.not_eq_true']
        refine ⟨by simpa using hbody, List.all_eq_true.mpr (fun c hc => ?_)⟩
        simpa using List.mem_takeWhile_imp hc
    · cases h

/-!  Classification of scanned matches. -/

theorem detect_of_sol (m : List Char) (h : solanaFullmatch m = true) :
    detect_address_type m = "Solana" := by
  simp [detect_address_type, h]

theorem urlFullmatch_shape (m : List Char) (h : urlFullmatch m = true) :
    (∃ rest, m = 'h' :: 't' :: 't' :: 'p' :: 's' :: ':' :: '/' :: '/' :: rest) ∨
    (∃ rest, m = 'h' :: 't' :: 't' :: 'p' :: ':' :: '/' :: '/' :: rest) := by
  simp only [urlFullmatch] at h
  split at h
  · rename_i h8
    left
    refine ⟨m.drop 8, ?_⟩
    conv_lhs => rw [← List.take_append_drop 8 m, h8]
    rfl
  · split at h
    · rename_i h8 h7
      right
      refine ⟨m.drop 7, ?_⟩
      conv_lhs => rw [← List.take_append_drop 7 m, h7]
      rfl
    · cases h

theorem urlFullmatch_not_sol_evm (m : List Char) (h : urlFullmatch m = true) :
    solanaFullmatch m = false ∧ evmFullmatch m = false := by
  rcases urlFullmatch_shape m h with ⟨rest, hm⟩ | ⟨rest, hm⟩ <;> subst hm <;>
    exact ⟨by simp [solanaFullmatch, isBase58], by simp [evmFullmatch]⟩

theorem detect_of_url (m : List Char) (h : urlFullmatch m = true) :
    detect_address_type m = "URL" := by
  obtain ⟨hs, he⟩ := urlFullmatch_not_sol_evm m h
  simp [detect_address_type, hs, he, h]

/-- Every tag the scan attaches is the `detect_address_type` of a match that
fully matches one of the three patterns. -/
theorem scanMessage_mem (content : List Char) (m : List Char) (t : String)
    (h : (m, t) ∈ scanMessage content) :
    t = detect_address_type m ∧
      (solanaFullmatch m = true ∨ evmFullmatch m = true ∨ urlFullmatch m = true) := by
  simp only [scanMessage, List.mem_append, List.mem_map] at h
  rcases h with (⟨a, ha, hq⟩ | ⟨a, ha, hq⟩) | ⟨a, ha, hq⟩
  · injection hq with h1 h2
    subst h1
    subst h2
    refine ⟨rfl, Or.inl ?_⟩
    simp only [solanaFindAll, List.mem_map] at ha
    obtain ⟨p, hp, hpa⟩ := ha
    obtain ⟨l', hl'⟩ := scanGas_mem solMatchAt _ _ _ p hp
    exact solMatchAt_fullmatch l' _ (hpa ▸ hl')
  · injection hq with h1 h2
    subst h1
    subst h2
    refine ⟨rfl, Or.inr (Or.inl ?_)⟩
    simp only [evmFindAll, List.mem_map] at ha
    obtain ⟨p, hp, hpa⟩ := ha
    obtain ⟨l', hl'⟩ := scanGas_mem evmMatchAt _ _ _ p hp
    exact evmMatchAt_fullmatch l' _ (hpa ▸ hl')
  · injection hq with h1 h2
    subst h1
    subst h2
    refine ⟨rfl, Or.inr (Or.inr ?_)⟩
    simp only [urlFindAll, List.mem_map] at ha
    obtain ⟨p, hp, hpa⟩ := ha
    obtain ⟨l', hl'⟩ := scanGas_mem urlMatchAt _ _ _ p hp
    exact urlMatchAt_fullmatch l' _ (hpa ▸ hl')

/-!  Claim C1. -/

theorem dropWhile_eq_self_of (p : Char → Bool) (l : List Char)
    (h : ∀ c ∈ l, p c = false) : l.dropWhile p = l := by
  cases l with
  | nil => rfl
  | cons c cs => simp [List.dropWhile_cons, h c (List.mem_cons_self c cs)]

theorem pyStrip_eq_self (l : List Char) (h : ∀ c ∈ l, isPySpace c = false) :
    pyStrip l = l := by
  have h1 : l.dropWhile isPySpace = l := dropWhile_eq_self_of _ _ h
  have h2 : l.reverse.dropWhile isPySpace = l.reverse :=
    dropWhile_eq_self_of _ _ (fun c hc => h c (List.mem_reverse.mp hc))
  simp [pyStrip, h1, h2]

theorem isHexChar_not_space (c : Char) (hc : isHexChar c = true) :
    isPySpace c = false := by
  by_contra hs
  have hs' : isPySpace c = true := by revert hs; cases isPySpace c <;> simp
  simp only [isPySpace, Bool.or_eq_true, decide_eq_true_eq] at hs'
  rcases hs' with ((((h1 | h1) | h1) | h1) | h1) | h1 <;> subst h1 <;>
    exact absurd hc (by decide)

theorem isHexChar_ne_h (c : Char) (hc : isHexChar c = true) : c ≠ 'h' := by
  intro h
  subst h
  exact absurd hc (by decide)

theorem urlMatchAt_none_of_head (c : Char) (cs : List Char) (hc : c ≠ 'h') :
    urlMatchAt (c :: cs) = Option.none := by
  simp [urlMatchAt, hc]

theorem urlScan_nil_of_no_h (gas : Nat) :
    ∀ (i : Nat) (l : List Char), (∀ c ∈ l, c ≠ 'h') →
      scanGas urlMatchAt gas i l = [] := by
  induction gas with
  | zero => intro i l _; rfl
  | succ g ih =>
      intro i l h
      cases l with
      | nil => rfl
      | cons c cs =>
          rw [scanGas_skip urlMatchAt g i c cs
            (urlMatchAt_none_of_head c cs (h c (List.mem_cons_self c cs)))]
          exact ih _ _ (fun x hx => h x (List.mem_cons_of_mem c hx))

/-- The concrete C1 counterexample input: `0x` followed by forty `a`s. -/
def c1Input : List Char := '0' :: 'x' :: List.replicate 40 'a'

/-- C1, counterexample: the input consists of `0x` followed by 40 hex
characters, yet the scan loop of `on_message` reports a Solana-tagged match
for it (the 41-character base58 substring starting at the `x`), alongside the
EVM-tagged full match — contradicting the claim's "reports no Solana-tagged
match". -/
theorem c1_counterexample :
    c1Input.length = 42 ∧
    (List.replicate 40 'a').all isHexChar = true ∧
    ('x' :: List.replicate 40 'a', "Solana") ∈ scanMessage c1Input ∧
    (c1Input, "EVM (Ethereum/BSC)") ∈ scanMessage c1Input := by
  decide

/-- C1, amended: for any string of exactly `0x` followed by 40 hex
characters, the scan reports the full string as an EVM match, reports no
URL-tagged match, and classifies the full string as EVM; but the Solana
pattern is still run over the text and may report base58 substrings as
additional Solana-tagged matches (see the counterexample), so the scan output
is exactly the Solana-pattern matches followed by the single EVM match. -/
theorem c1_amended_claim (h : List Char) (h40 : h.length = 40)
    (hhex : h.all isHexChar = true) :
    scanMessage ('0' :: 'x' :: h) =
      (solanaFindAll ('0' :: 'x' :: h)).map (fun m => (m, detect_address_type m)) ++
        [('0' :: 'x' :: h, "EVM (Ethereum/BSC)")] := by
  have hhex' : ∀ c ∈ h, isHexChar c = true := List.all_eq_true.mp hhex
  have hns : ∀ c ∈ ('0' :: 'x' :: h), isPySpace c = false := by
    intro c hc
    rcases List.mem_cons.mp hc with rfl | hc
    · decide
    rcases List.mem_cons.mp hc with rfl | hc
    · decide
    · exact isHexChar_not_space c (hhex' c hc)
  have hstrip : pyStrip ('0' :: 'x' :: h) = ('0' :: 'x' :: h) := pyStrip_eq_self _ hns
  have hlen : ('0' :: 'x' :: h).length = 41 + 1 := by simp [h40]
  have hmatch : evmMatchAt ('0' :: 'x' :: h) = some ('0' :: 'x' :: h) := by
    have ht : h.take 40 = h := List.take_of_length_le (by omega)
    simp [evmMatchAt, ht, hhex, h40]
  have hevm : evmFindAll ('0' :: 'x' :: h) = ['0' :: 'x' :: h] := by
    rw [evmFindAll, evmScan, hlen, scanGas_match _ _ _ _ _ _ hmatch, List.drop_length,
      scanGas_nil]
    rfl
  have hurl : urlFindAll ('0' :: 'x' :: h) = [] := by
    rw [urlFindAll, urlScan, urlScan_nil_of_no_h]
    · rfl
    · intro c hc
      rcases List.mem_cons.mp hc with rfl | hc
      · decide
      rcases List.mem_cons.mp hc with rfl | hc
      · decide
      · exact isHexChar_ne_h c (hhex' c hc)
  have hdet : detect_address_type ('0' :: 'x' :: h) = "EVM (Ethereum/BSC)" := by
    have hsol : solanaFullmatch ('0' :: 'x' :: h) = false := by
      simp [solanaFullmatch, isBase58]
    have hevmf : evmFullmatch ('0' :: 'x' :: h) = true := by
      simp [evmFullmatch, h40, hhex]
    simp [detect_address_type, hsol, hevmf]
  rw [scanMessage, hstrip, hevm, hurl]
  simp [hdet]

/-- Witness for the amended C1 at the concrete counterexample input. -/
theorem c1_amended_claim_witness :
    (List.replicate 40 'a').length = 40 ∧
    (List.replicate 40 'a').all isHexChar = true ∧
    scanMessage ('0' :: 'x' :: List.replicate 40 'a') =
      (solanaFindAll ('0' :: 'x' :: List.replicate 40 'a')).map
          (fun m => (m, detect_address_type m)) ++
        [('0' :: 'x' :: List.replicate 40 'a', "EVM (Ethereum/BSC)")] :=
  ⟨by decide, by decide, c1_amended_claim (List.replicate 40 'a') (by decide) (by decide)⟩

/-!  Claim C7. -/

/-- Concrete C7 instance: a URL at text position 0 followed by a 44-character
base58 token at text position 9. -/
def c7Example : List Char :=
  'h' :: 't' :: 't' :: 'p' :: ':' :: '/' :: '/' :: 'x' :: ' ' :: List.replicate 44 'z'

/-- C7: the scan output is exactly the Solana-pattern matches, then the
EVM-pattern matches, then the URL-pattern matches, each tagged with its
detected type; within each pattern the matches carry strictly increasing
text positions (within-pattern text order).  The concrete instance shows the
order is not global left-to-right: its URL match starts at position 0 and its
Solana match at position 9, yet the Solana match is reported first. -/
theorem c7_claim (content : List Char) :
    (scanMessage content =
      (solanaFindAll (pyStrip content)).map (fun m => (m, detect_address_type m)) ++
        (evmFindAll (pyStrip content)).map (fun m => (m, detect_address_type m)) ++
        (urlFindAll (pyStrip content)).map (fun m => (m, detect_address_type m))) ∧
    List.Chain' (fun a b => a.1 < b.1) (solScan (pyStrip content)) ∧
    List.Chain' (fun a b => a.1 < b.1) (evmScan (pyStrip content)) ∧
    List.Chain' (fun a b => a.1 < b.1) (urlScan (pyStrip content)) ∧
    (scanMessage c7Example).map Prod.snd = ["Solana", "URL"] ∧
    urlScan c7Example = [(0, 'h' :: 't' :: 't' :: 'p' :: ':' :: '/' :: '/' :: 'x' :: [])] ∧
    solScan c7Example = [(9, List.replicate 44 'z')] := by
  refine ⟨rfl, ?_, ?_, ?_, by decide, by decide, by decide⟩
  · exact (scanGas_mono solMatchAt solMatchAt_length _ _ _).1
  · exact (scanGas_mono evmMatchAt evmMatchAt_length _ _ _).1
  · exact (scanGas_mono urlMatchAt urlMatchAt_length _ _ _).1

/-!  Claim C8. -/

/-- C8: `format_number` yields the `"N/A"` sentinel — never a numeric
string — for `None` and for 0; for positive inputs it yields a dollar figure
with the B/M/K magnitude suffix chosen at the 1e9/1e6/1e3 thresholds
(2 decimals on the scaled value), 4 decimals for values at least 1 and
8 decimals for sub-unit values. -/
theorem c8_claim :
    format_number PyVal.none = "N/A" ∧
    format_number (.num 0) = "N/A" ∧
    ∀ q : ℚ, 0 < q →
      format_number (.num q) =
        if 1000000000 ≤ q then "$" ++ formatFixed (q / 1000000000) 2 ++ "B"
        else if 1000000 ≤ q then "$" ++ formatFixed (q / 1000000) 2 ++ "M"
        else if 1000 ≤ q then "$" ++ formatFixed (q / 1000) 2 ++ "K"
        else if 1 ≤ q then "$" ++ formatFixed q 4
        else "$" ++ formatFixed q 8 := by
  refine ⟨rfl, rfl, fun q hq => ?_⟩
  have hne : q ≠ 0 := ne_of_gt hq
  simp [format_number, pyIsNone, pyEqZero, pyFloat, hne]

theorem ratFloor_intCast (n : ℤ) : Rat.floor ((n : ℚ)) = n := by
  have h : Rat.floor ((n : ℚ)) = ⌊((n : ℚ))⌋ := rfl
  rw [h, Int.floor_intCast]

theorem roundHalfEven_intCast (n : ℤ) : roundHalfEven ((n : ℚ)) = n := by
  norm_num [roundHalfEven, ratFloor_intCast]

/-- Witness for C8 at the concrete positive input 2. -/
theorem c8_claim_witness :
    0 < (2 : ℚ) ∧ format_number (.num 2) = "$2.0000" := by
  refine ⟨by norm_num, (c8_claim.2.2 2 (by norm_num)).trans ?_⟩
  rw [if_neg (by norm_num), if_neg (by norm_num), if_neg (by norm_num),
    if_pos (by norm_num)]
  have hs : roundHalfEven ((2 : ℚ) * (10 : ℚ) ^ (4 : Nat)) = 20000 := by
    have h2 : ((2 : ℚ) * (10 : ℚ) ^ (4 : Nat)) = ((20000 : ℤ) : ℚ) := by norm_num
    rw [h2, roundHalfEven_intCast]
  have hf : formatFixed 2 4 = "2.0000" := by
    simp only [formatFixed]
    rw [hs]
    decide
  rw [hf]
  rfl

/-!  Claim C9. -/

/-- C9: a message authored by the bot itself is dropped before any work
happens — no pattern scan result is acted on, no loading message is sent, no
resolver is invoked and no reply of any kind is emitted, whatever the content
and whatever the upstream sources would answer. -/
theorem c9_claim (content : List Char) (solE : List Char → SolEnv)
    (evmE : List Char → EvmEnv) :
    on_message true content solE evmE = [] := rfl

/-!  Claim C10. -/

/-- C10: a detected match whose tag is neither Solana nor EVM is necessarily
tagged URL (scanned matches full-match their own pattern, and a URL full
match can never full-match the Solana or EVM patterns); for such a match no
market-data resolver is invoked, the handler keeps the default
`{'success': False}` record, and the reply embed consists of the static URL
warning block plus the always-present chain indicator only — no market-data
fields. -/
theorem c10_claim (content : List Char) (solE : SolEnv) (evmE : EvmEnv)
    (m : List Char) (t : String) (hmem : (m, t) ∈ scanMessage content)
    (hns : t ≠ "Solana") (hne : t ≠ "EVM (Ethereum/BSC)") :
    t = "URL" ∧
    (processMatch m t solE evmE).resolverCalls = [] ∧
    (processMatch m t solE evmE).tokenData = [("success", PyVal.bool false)] ∧
    (processMatch m t solE evmE).embedFields =
      .ok [⟨"🌐 URL Detected", urlWarningValue⟩, ⟨"⛓️ Blockchain", "**URL**"⟩] := by
  obtain ⟨ht, hfull⟩ := scanMessage_mem content m t hmem
  have hturl : t = "URL" := by
    rcases hfull with hs | he | hu
    · exact absurd (ht.trans (detect_of_sol m hs)) hns
    · by_cases hs : solanaFullmatch m = true
      · exact absurd (ht.trans (detect_of_sol m hs)) hns
      · refine absurd (ht.trans ?_) hne
        simp [detect_address_type, hs, he]
    · exact ht.trans (detect_of_url m hu)
  subst hturl
  exact ⟨rfl, rfl, rfl, rfl⟩

/-- Witness for C10 at the concrete message `http://x`. -/
theorem c10_claim_witness :
    (('h' :: 't' :: 't' :: 'p' :: ':' :: '/' :: '/' :: 'x' :: [], "URL") ∈
        scanMessage ('h' :: 't' :: 't' :: 'p' :: ':' :: '/' :: '/' :: 'x' :: [])) ∧
    ("URL" : String) ≠ "Solana" ∧ ("URL" : String) ≠ "EVM (Ethereum/BSC)" ∧
    (processMatch ('h' :: 't' :: 't' :: 'p' :: ':' :: '/' :: '/' :: 'x' :: []) "URL"
        ⟨.err, .err, .err⟩ ⟨.err, .err⟩).resolverCalls = [] ∧
    (processMatch ('h' :: 't' :: 't' :: 'p' :: ':' :: '/' :: '/' :: 'x' :: []) "URL"
        ⟨.err, .err, .err⟩ ⟨.err, .err⟩).tokenData = [("success", PyVal.bool false)] ∧
    (processMatch ('h' :: 't' :: 't' :: 'p' :: ':' :: '/' :: '/' :: 'x' :: []) "URL"
        ⟨.err, .err, .err⟩ ⟨.err, .err⟩).embedFields =
      .ok [⟨"🌐 URL Detected", urlWarningValue⟩, ⟨"⛓️ Blockchain", "**URL**"⟩] := by
  have h := c10_claim ('h' :: 't' :: 't' :: 'p' :: ':' :: '/' :: '/' :: 'x' :: [])
    ⟨.err, .err, .err⟩ ⟨.err, .err⟩
    ('h' :: 't' :: 't' :: 'p' :: ':' :: '/' :: '/' :: 'x' :: []) "URL"
    (by decide) (by decide) (by decide)
  exact ⟨by decide, by decide, by decide, h.2.1, h.2.2.1, h.2.2.2⟩
